import Mathlib

/-!
Verification of the PPTX-AI slide-generation core.

This file gives a shallow embedding, in Lean 4, of the pure algorithmic core of
the PPTX-AI repository and proves (or refutes) the claims of its specification:

* the responsive font engine
  (modules/enhanced_powerpoint_generator.py, class ResponsiveFontManager);
* the layout strategy selector
  (modules/enhanced_powerpoint_generator.py, _determine_layout_strategy);
* the content quality refiner
  (modules/bert_refiner.py, class BertContentRefiner, together with the
  lightweight fallback class of bert_features_extracted.py);
* the content signal extractor and chart construction
  (modules/advanced_features.py, AdvancedContentProcessor.analyze_content, and
  modules/enhanced_powerpoint_generator.py, _add_chart_to_slide).

Modelling conventions:
* Python floats are modelled by rationals; Python int() truncation toward zero
  is modelled by pyInt below.
* Python dictionaries holding optional keys are modelled by structures whose
  fields are Option values; an absent key is none.
* The external T5 generation call of the refiner is modelled by a parameter
  collab : List String -> List String mapping the batched list of prefixed
  inputs to the batched list of rewritten outputs, and the embedding counts
  how many times the batched generate request is issued.
* All text manipulation (lower-casing, splitting into words, trimming) is
  re-implemented structurally over the character list of a string, mirroring
  the behaviour of the corresponding Python string methods, so that every
  definition evaluates inside the kernel.
-/

/-! ### Basic string helpers (structural re-implementations of Python string methods) -/

/-- Words of a string in the sense of Python str.split() with no argument:
split on maximal whitespace runs, discarding empty pieces. -/
def pyWordsAux : List Char → List Char → List String → List String
  | [], [], acc => acc.reverse
  | [], cur, acc => (String.mk cur.reverse :: acc).reverse
  | c :: cs, cur, acc =>
    if c.isWhitespace then
      if cur = [] then pyWordsAux cs [] acc
      else pyWordsAux cs [] (String.mk cur.reverse :: acc)
    else pyWordsAux cs (c :: cur) acc

/-- Python text.split() on a string. -/
def pyWords (s : String) : List String := pyWordsAux s.data [] []

/-- Python str.strip(): remove leading and trailing whitespace. -/
def pyStrip (s : String) : String :=
  String.mk (((s.data.dropWhile Char.isWhitespace).reverse.dropWhile Char.isWhitespace).reverse)

/-- Python str.lower(), character by character. -/
def pyLower (s : String) : String := String.mk (s.data.map Char.toLower)

/-- Boolean test deciding whether the second character list is an initial
segment of the first argument list. -/
def leadsWith : List Char → List Char → Bool
  | [], _ => true
  | _ :: _, [] => false
  | a :: as, b :: bs => if b = a then leadsWith as bs else false

/-- Python substring containment needle in hay, on already-lowercased text. -/
def containsSub (hay needle : String) : Bool :=
  (hay.data.tails).any (fun t => leadsWith needle.data t)

/-! ### ResponsiveFontManager (modules/enhanced_powerpoint_generator.py, lines 18-101) -/

/-- Python int() applied to a rational: truncation toward zero. -/
def pyInt (q : ℚ) : ℤ := if 0 ≤ q then ⌊q⌋ else ⌈q⌉

/-- Python min of two rationals (first argument wins on ties). -/
def pyMin (a b : ℚ) : ℚ := if a ≤ b then a else b

/-- Scale factor of _calculate_base_sizes: min(width / 10.0, height / 7.5). -/
def scale_factor (w h : ℚ) : ℚ := pyMin (w / 10) (h / (15/2))

/-- One entry of the sizes dictionary: int(base * scale) clamped below by 10pt,
mirroring lines 34-49 of enhanced_powerpoint_generator.py. -/
def baseSize (c : ℕ) (s : ℚ) : ℕ := max (pyInt (c * s)).toNat 10

/-- The sizes dictionary computed by ResponsiveFontManager._calculate_base_sizes. -/
structure FontTable where
  presentation_title : ℕ
  slide_title : ℕ
  subtitle : ℕ
  heading : ℕ
  content_large : ℕ
  content_normal : ℕ
  content_small : ℕ
  bullet_main : ℕ
  bullet_sub : ℕ
  caption : ℕ
deriving DecidableEq, Repr

/-- ResponsiveFontManager._calculate_base_sizes for a slide geometry (w, h) in
inches: each role constant is multiplied by the scale factor, truncated to an
integer, and clamped to a 10pt minimum. -/
def calculate_base_sizes (w h : ℚ) : FontTable :=
  let s := scale_factor w h
  { presentation_title := baseSize 36 s
    slide_title := baseSize 28 s
    subtitle := baseSize 20 s
    heading := baseSize 18 s
    content_large := baseSize 16 s
    content_normal := baseSize 14 s
    content_small := baseSize 12 s
    bullet_main := baseSize 15 s
    bullet_sub := baseSize 13 s
    caption := baseSize 10 s }

/-- ResponsiveFontManager.get_content_size (lines 62-79): pick the base size for
the content type, then degrade with the text length in bands, with per-band
floors. -/
def get_content_size (w h : ℚ) (text_length : ℕ) (content_type : String) : ℕ :=
  let t := calculate_base_sizes w h
  let base := if content_type = "detailed" then t.content_large
              else if content_type = "heading" then t.heading
              else t.content_normal
  if text_length > 500 then max (base - 3) 11
  else if text_length > 300 then max (base - 2) 12
  else if text_length > 150 then max (base - 1) 13
  else base

/-- ResponsiveFontManager.get_bullet_size (lines 81-97): degrade the bullet-main
base size with the bullet count, then with the average bullet length, floored at
11pt.  The length test checks avg > 100 before avg > 150, exactly as the
source's if/elif chain does. -/
def get_bullet_size (w h : ℚ) (bullet_count avg_bullet_length : ℕ) : ℕ :=
  let t := calculate_base_sizes w h
  let base0 := t.bullet_main
  let base1 := if bullet_count > 8 then base0 - 2
               else if bullet_count > 6 then base0 - 1
               else base0
  let base2 := if avg_bullet_length > 100 then base1 - 1
               else if avg_bullet_length > 150 then base1 - 2
               else base1
  max base2 11

/-- Claimed bullet sizing, written from the specification text: reduce by 1
when count > 6 and by 2 when count > 8, reduce by 1 when average length > 100
and by 2 when average length > 150, floored at 11pt.  This definition follows
the spec's words and is compared against get_bullet_size, which follows the
source. -/
def bulletSizeClaimed (w h : ℚ) (bullet_count avg_bullet_length : ℕ) : ℕ :=
  let t := calculate_base_sizes w h
  let cAdj := if bullet_count > 8 then 2 else if bullet_count > 6 then 1 else 0
  let lAdj := if avg_bullet_length > 150 then 2 else if avg_bullet_length > 100 then 1 else 0
  max (t.bullet_main - cAdj - lAdj) 11

/-! ### LayoutStrategySelector (enhanced_powerpoint_generator.py, lines 344-359) -/

/-- EnhancedPowerPointGenerator._determine_layout_strategy: the priority-encoded
if/elif chain of the source. -/
def determine_layout_strategy (has_charts has_diagrams has_content has_image : Bool) : String :=
  if has_charts && has_diagrams then "mixed_media"
  else if has_charts && has_content then "charts_and_content"
  else if has_diagrams && has_content then "diagrams_and_content"
  else if has_charts then "charts_only"
  else if has_diagrams then "diagrams_only"
  else if has_image && has_content then "image_and_content"
  else "content_only"

/-- The layout decision table as the specification writes it: a priority table
evaluated in fixed order, first match wins.  This definition follows the spec's
words and is compared against determine_layout_strategy, which follows the
source. -/
def layoutTableSpec (has_charts has_diagrams has_content has_photo : Bool) : String :=
  if has_charts = true ∧ has_diagrams = true then "mixed_media"
  else if has_charts = true ∧ has_content = true then "charts_and_content"
  else if has_diagrams = true ∧ has_content = true then "diagrams_and_content"
  else if has_charts = true then "charts_only"
  else if has_diagrams = true then "diagrams_only"
  else if has_photo = true ∧ has_content = true then "image_and_content"
  else "content_only"

/-! ### BertContentRefiner (modules/bert_refiner.py) -/

/-- Result of BertContentRefiner._analyze_text_quality: a score, an action tag
and a human-readable reason. -/
structure Analysis where
  score : ℚ
  action : String
  reason : String
deriving DecidableEq, Repr

/-- BertContentRefiner._analyze_text_quality (lines 36-61).  Note the source
computes the long-word fraction as len(long_words) / len(words + [1e-5]): the
denominator is the LENGTH OF THE LIST words + [1e-5], that is len(words) + 1,
not len(words) + 1e-5. -/
def analyze_text_quality (text : String) : Analysis :=
  let words := pyWords text
  if words.length > 40 then
    { score := 1 - 3/10, action := "summarize"
      reason := "Văn bản quá dài cho một slide, cần rút gọn." }
  else
    let long_words := words.filter (fun w => w.length > 12)
    if ((long_words.length : ℚ) / ((words.length : ℚ) + 1) > 15/100) then
      { score := 1 - 2/10, action := "clarify"
        reason := "Sử dụng nhiều từ phức tạp, cần làm rõ ràng hơn." }
    else
      { score := 1, action := "none", reason := "" }

/-- Instruction prefixes of refine_content_batch (lines 71-76).  The source
dictionary has exactly the keys summarize, clarify, grammar and none; any other
action never reaches the dictionary. -/
def instructionFor (action : String) : String :=
  if action = "summarize" then "summarize: "
  else if action = "clarify" then "make it clear: "
  else if action = "grammar" then "fix grammar: "
  else ""

/-- The list of inputs actually submitted to the generative model: one prefixed
string per fragment whose action is not none (line 79). -/
def batchInputs (texts actions : List String) : List String :=
  (texts.zip actions).filterMap
    (fun p => if p.2 ≠ "none" then some (instructionFor p.2 ++ p.1) else none)

/-- Mapping the model outputs back to the original positions (lines 97-105):
fragments whose action is none keep their original text, the others consume the
next model output in order.  The model returns one output per submitted input,
so the default of headD is never used on the source's call path. -/
def mapBackOutputs : List (String × String) → List String → List String
  | [], _ => []
  | (t, a) :: rest, outs =>
    if a ≠ "none" then (outs.headD t) :: mapBackOutputs rest outs.tail
    else t :: mapBackOutputs rest outs

/-- BertContentRefiner.refine_content_batch (lines 63-106).  The second
component counts how many batched generate requests are issued to the
collaborator: the source calls self.model.generate exactly once, and only when
the refiner is available and the filtered input list is non-empty. -/
def refine_content_batch (collab : List String → List String) (available : Bool)
    (texts actions : List String) : List String × ℕ :=
  if available = false ∨ texts = [] then (texts, 0)
  else
    let inputs := batchInputs texts actions
    if inputs = [] then (texts, 0)
    else (mapBackOutputs (texts.zip actions) (collab inputs), 1)

/-- One slide dictionary.  Fields the code may read or write are modelled as
Option values; an absent dictionary key is none. -/
structure Slide where
  slide_title : Option String := none
  content : Option String := none
  bullet_points : Option (List String) := none
  detailed_content : Option String := none
  slide_content : Option (List String) := none
  speaking_points : Option (List String) := none
  quality_score : Option ℚ := none
  bert_refined : Option Bool := none
  bert_suggestions : Option (List String) := none
  original_content : Option String := none
  original_bullet_points : Option (List String) := none
deriving DecidableEq, Repr

/-- The bert_refinement_stats dictionary.  improved_speaking only exists in the
fallback class and total_quality_score only in the real refiner, so both are
Option fields. -/
structure RefinementStats where
  total_slides : ℕ
  improved_content : ℕ
  improved_bullets : ℕ
  improved_speaking : Option ℕ
  total_quality_score : Option ℚ
  average_quality : ℚ
  method_used : String
deriving DecidableEq, Repr

/-- The slides_data dictionary: the deck. -/
structure Deck where
  slides : List Slide
  bert_refinement_stats : Option RefinementStats := none
deriving DecidableEq, Repr

/-- Which field of its slide a collected fragment came from. -/
inductive FragField where
  | contentField : FragField
  | bullet (j : ℕ) : FragField
deriving DecidableEq, Repr

/-- One entry of original_map (lines 131 and 139): the owning slide index, the
field, and the analysis of the fragment. -/
structure MapEntry where
  slide_index : ℕ
  field : FragField
  analysis : Analysis
deriving DecidableEq, Repr

/-- The fragments one slide contributes to texts_to_process / original_map
(lines 124-139): its content field when the string is non-empty, then each
bullet point in order. -/
def slideFragments (i : ℕ) (s : Slide) : List (String × MapEntry) :=
  (if s.content.getD "" ≠ "" then
      [(s.content.getD "", ⟨i, FragField.contentField, analyze_text_quality (s.content.getD "")⟩)]
   else []) ++
  ((s.bullet_points.getD []).enum.map
    (fun p => (p.2, ⟨i, FragField.bullet p.1, analyze_text_quality p.2⟩)))

/-- Step 1 of refine_content: collect all fragments of all slides, in slide
order, content before bullets. -/
def collectFrags (slides : List Slide) : List (String × MapEntry) :=
  (slides.enum.map (fun p => slideFragments p.1 p.2)).flatten

/-- Lines 165-167 of refine_content: default-initialise the bookkeeping keys of
a slide the first time one of its fragments is processed. -/
def initSlideFields (s : Slide) : Slide :=
  { s with bert_refined := some (s.bert_refined.getD false)
           quality_score := some (s.quality_score.getD 1)
           bert_suggestions := some (s.bert_suggestions.getD []) }

/-- Line 187 of refine_content: discount the running quality score of a slide
by (1 - fragment score). -/
def decQuality (s : Slide) (sc : ℚ) : Slide :=
  { s with quality_score := some ((s.quality_score.getD 1) - (1 - sc)) }

/-- One iteration of the update loop of refine_content (lines 158-187), applied
to the running slide list together with the improved_content_slides and
improved_bullets_slides sets.  The fragment carries its original text, its map
entry and its (possibly) rewritten text. -/
def applyStep (st : List Slide × Finset ℕ × Finset ℕ)
    (fr : (String × MapEntry) × String) : List Slide × Finset ℕ × Finset ℕ :=
  match st.1[fr.1.2.slide_index]? with
  | none => st
  | some s0 =>
    let e := fr.1.2
    let s1 := initSlideFields s0
    if pyStrip fr.1.1 ≠ pyStrip fr.2 ∧ e.analysis.action ≠ "none" then
      match e.field with
      | FragField.contentField =>
        let s2 := { s1 with bert_refined := some true
                            bert_suggestions := some (s1.bert_suggestions.getD [] ++ [e.analysis.reason])
                            original_content := some fr.1.1
                            content := some fr.2 }
        (st.1.set e.slide_index (decQuality s2 e.analysis.score),
         insert e.slide_index st.2.1, st.2.2)
      | FragField.bullet j =>
        let s2a := { s1 with bert_refined := some true
                             bert_suggestions := some (s1.bert_suggestions.getD [] ++ [e.analysis.reason]) }
        let s2b := if s2a.original_bullet_points = none
                   then { s2a with original_bullet_points := some (s2a.bullet_points.getD []) }
                   else s2a
        let s2 := { s2b with bullet_points := some ((s2b.bullet_points.getD []).set j fr.2) }
        (st.1.set e.slide_index (decQuality s2 e.analysis.score),
         st.2.1, insert e.slide_index st.2.2)
    else
      (st.1.set e.slide_index (decQuality s1 e.analysis.score), st.2.1, st.2.2)

/-- The whole update loop of Step 3, folded over the fragments paired with
their rewritten texts. -/
def scatterState (slides : List Slide)
    (pairs : List ((String × MapEntry) × String)) : List Slide × Finset ℕ × Finset ℕ :=
  pairs.foldl applyStep (slides, ∅, ∅)

/-- Lines 190-192: clamp the final quality score of a slide to the 0.1 floor. -/
def clampSlide (s : Slide) : Slide :=
  { s with quality_score := some (max (1/10) (s.quality_score.getD 1)) }

/-- Reading a slide's quality score as the source does, with the dictionary
default 1.0. -/
def slideQuality (s : Slide) : ℚ := s.quality_score.getD 1

/-- The fragments of a deck's slides zipped with the batched rewrite results,
exactly the pairing the update loop of refine_content iterates over. -/
def refinePairs (collab : List String → List String) (available : Bool)
    (slides : List Slide) : List ((String × MapEntry) × String) :=
  let frags := collectFrags slides
  frags.zip (refine_content_batch collab available (frags.map Prod.fst)
              (frags.map (fun f => f.2.analysis.action))).1

/-- Number of batched generate requests one refine_content invocation issues. -/
def refineCalls (collab : List String → List String) (available : Bool)
    (slides : List Slide) : ℕ :=
  let frags := collectFrags slides
  (refine_content_batch collab available (frags.map Prod.fst)
    (frags.map (fun f => f.2.analysis.action))).2

/-- BertContentRefiner.refine_content (lines 108-200), together with the count
of batched generate requests it issued.  When the refiner is unavailable or the
deck has no slides the input is returned unchanged (lines 112-117). -/
def refineContentAux (collab : List String → List String) (available : Bool)
    (device : String) (data : Deck) : Deck × ℕ :=
  if available then
    if data.slides = [] then (data, 0)
    else
      let st := scatterState data.slides (refinePairs collab available data.slides)
      let slides2 := st.1.map clampSlide
      let total := (slides2.map slideQuality).sum
      ({ data with
          slides := slides2
          bert_refinement_stats := some {
            total_slides := data.slides.length
            improved_content := st.2.1.card
            improved_bullets := st.2.2.card
            improved_speaking := none
            total_quality_score := some total
            average_quality := if data.slides.length = 0 then 0
                               else total / (data.slides.length : ℚ)
            method_used := "t5-small (" ++ device ++ ")" } },
       refineCalls collab available data.slides)
  else (data, 0)

/-- BertContentRefiner.refine_content: the returned deck. -/
def refine_content (collab : List String → List String) (available : Bool)
    (device : String) (data : Deck) : Deck :=
  (refineContentAux collab available device data).1

/-- Number of batched generative calls a refine_content invocation performs. -/
def refine_generate_calls (collab : List String → List String) (available : Bool)
    (device : String) (data : Deck) : ℕ :=
  (refineContentAux collab available device data).2

/-- The lightweight fallback class of bert_features_extracted.py (lines 34-55):
its refine_content stamps every slide with quality 0.8 and bert_refined False,
leaves every text field unchanged, and attaches rule-based stats. -/
def fallbackRefine (data : Deck) : Deck :=
  { data with
      slides := data.slides.map
        (fun s => { s with quality_score := some (4/5), bert_refined := some false })
      bert_refinement_stats := some {
        total_slides := data.slides.length
        improved_content := 0
        improved_bullets := 0
        improved_speaking := some 0
        total_quality_score := none
        average_quality := 4/5
        method_used := "rule-based" } }

/-! ### AdvancedContentProcessor (modules/advanced_features.py, lines 18-59) -/

/-- Optional decimal part of a numeric token: a dot or comma followed by at
least one digit, mirroring the regex group (?:[.,]\d+)?. -/
def decimalPart (cs : List Char) : List Char × List Char :=
  match cs with
  | c :: rest =>
    if c = '.' ∨ c = ',' then
      let ds := rest.takeWhile Char.isDigit
      if ds = [] then ([], cs)
      else (c :: ds, rest.dropWhile Char.isDigit)
    else ([], cs)
  | [] => ([], cs)

/-- Optional unit suffix of a numeric token, mirroring the regex group
(?:\s*%|\s*tr|\s*tỷ|\s*k)? with its alternation order: optional whitespace
followed by one of the unit markers; if no marker follows, nothing is
consumed. -/
def unitSuffix (cs : List Char) : List Char × List Char :=
  let ws := cs.takeWhile Char.isWhitespace
  let r := cs.dropWhile Char.isWhitespace
  match r with
  | '%' :: rest => (ws ++ ['%'], rest)
  | 't' :: 'r' :: rest => (ws ++ ['t', 'r'], rest)
  | 't' :: 'ỷ' :: rest => (ws ++ ['t', 'ỷ'], rest)
  | 'k' :: rest => (ws ++ ['k'], rest)
  | _ => ([], cs)

/-- Left-to-right non-overlapping scan for the numeric-token regex
\d+(?:[.,]\d+)?(?:\s*%|\s*tr|\s*tỷ|\s*k)? as re.findall performs it.  The fuel
argument bounds the recursion; every step consumes at least one character, so a
fuel equal to the length of the text is always sufficient. -/
def scanNumbersAux : ℕ → List Char → List String
  | 0, _ => []
  | _, [] => []
  | fuel + 1, c :: rest =>
    if c.isDigit then
      let ds := (c :: rest).takeWhile Char.isDigit
      let r1 := (c :: rest).dropWhile Char.isDigit
      let d2 := decimalPart r1
      let u := unitSuffix d2.2
      String.mk (ds ++ d2.1 ++ u.1) :: scanNumbersAux fuel u.2
    else scanNumbersAux fuel rest

/-- All numeric tokens of a text, in document order (line 41 of
advanced_features.py, applied to the lowercased text). -/
def findNumbers (text : String) : List String :=
  scanNumbersAux text.data.length text.data

/-- The chart keyword dictionary of AdvancedContentProcessor.__init__, in its
insertion order bar, line, pie, process. -/
def chartKeywords : List (String × List String) :=
  [("bar", ["so sánh", "phân loại", "thống kê", "dữ liệu", "số liệu"]),
   ("line", ["xu hướng", "thời gian", "phát triển", "tăng trưởng", "biến đổi"]),
   ("pie", ["tỷ lệ", "phần trăm", "%", "cơ cấu", "thành phần"]),
   ("process", ["bước", "quy trình", "tiến trình", "flow", "workflow"])]

/-- First chart type whose keyword set hits the lowercased text (lines 47-51):
iteration over the dictionary in insertion order, break on first hit. -/
def classifyChart (text_lower : String) : Option String :=
  (chartKeywords.find? (fun p => p.2.any (fun kw => containsSub text_lower kw))).map Prod.fst

/-- The fields of the analysis result of analyze_content that the claims
exercise: the numeric-token scan (lines 40-44) and the chart-type
classification (lines 46-51).  The process-step scan of lines 53-57 populates
fields no claim touches and is not modelled. -/
structure ContentAnalysis where
  has_numbers : Bool
  numbers_data : List String
  chart_type : Option String
deriving DecidableEq, Repr

/-- AdvancedContentProcessor.analyze_content: scan the lowercased text for
numeric tokens, keep at most the first 8, and classify the chart intent. -/
def analyze_content (text : String) : ContentAnalysis :=
  let numbers := findNumbers (pyLower text)
  { has_numbers := numbers ≠ []
    numbers_data := numbers.take 8
    chart_type := classifyChart (pyLower text) }

/-- Numeric cleaning of one token in _add_chart_to_slide (lines 689-696): keep
only the digit characters and read them as a number; a token without digits is
dropped. -/
def cleanNumber (s : String) : Option ℕ :=
  let ds := s.data.filter Char.isDigit
  if ds = [] then none
  else some (ds.foldl (fun n c => 10 * n + (c.toNat - '0'.toNat)) 0)

/-- The data points a chart is built from: the first 6 numeric tokens, cleaned
(line 689). -/
def chartDataPoints (a : ContentAnalysis) : List ℕ :=
  (a.numbers_data.take 6).filterMap cleanNumber

/-- EnhancedPowerPointGenerator._add_chart_to_slide (lines 681-715), reduced to
the chart specification it sends to the rasterizer: when at least 2 cleaned
data points exist, a chart of the selected type with positional labels
Item 1, Item 2, ...; otherwise no chart.  The type defaults to bar whenever
chart_type is neither pie nor line - in particular when analyze_content left it
at None. -/
def chartSpecOf (a : ContentAnalysis) : Option (String × List String × List ℕ) :=
  let pts := chartDataPoints a
  if pts.length ≥ 2 then
    some (if a.chart_type = some "pie" then "pie"
          else if a.chart_type = some "line" then "line"
          else "bar",
          ((List.range pts.length).map (fun i => "Item " ++ toString (i + 1)),
           pts))
  else none

/-! ### Concrete inputs used by witnesses and counterexamples -/

/-- A batched collaborator that returns every submitted input unchanged; it is
deterministic. -/
def idCollab : List String → List String := fun l => l

/-- A fragment of 41 single-letter words: its word count exceeds 40, so the
analysis assigns the summarize action. -/
def longFragment : String :=
  "w w w w w w w w w w w w w w w w w w w w w w w w w w w w w w w w w w w w w w w w w"

/-- A deck with one slide carrying no keys at all. -/
def bareDeck : Deck := { slides := [{}] }

/-- A deck with one slide whose only text is one over-long bullet. -/
def bulletDeck : Deck := { slides := [{ bullet_points := some [longFragment] }] }

/-- A deck with one slide whose only text is an over-long content field. -/
def contentDeck : Deck := { slides := [{ content := some longFragment }] }

/-- A deck with one slide that carries only documented outline fields. -/
def outlineDeck : Deck :=
  { slides := [{ slide_title := some "T", slide_content := some ["p"],
                 detailed_content := some "d", speaking_points := some ["s"] }] }

/-- The end-to-end example fragment of the specification. -/
def quarterText : String := "Q1: 100tr, Q2: 150tr, Q3: 200tr, Q4: 180tr"

/-! ### Helper lemmas -/

/-- The heuristic analysis never returns a score above the 1.0 baseline. -/
theorem analyze_score_le_one (t : String) : (analyze_text_quality t).score ≤ 1 := by
  unfold analyze_text_quality
  dsimp only
  split
  · norm_num
  · split
    · norm_num
    · norm_num

/-- If the first matching rule of the analysis is none, the result keeps the
baseline score and the empty reason. -/
theorem analyze_none_of (t : String)
    (h1 : ¬ (pyWords t).length > 40)
    (h2 : ¬ ((((pyWords t).filter (fun w => w.length > 12)).length : ℚ) /
              (((pyWords t).length : ℚ) + 1) > 15/100)) :
    analyze_text_quality t = { score := 1, action := "none", reason := "" } := by
  unfold analyze_text_quality
  rw [if_neg h1, if_neg h2]

/-- Every fragment collected from a deck carries the heuristic analysis of some
text. -/
theorem collectFrags_analysis (slides : List Slide) :
    ∀ f ∈ collectFrags slides, ∃ t, f.2.analysis = analyze_text_quality t := by
  intro f hf
  unfold collectFrags at hf
  rw [List.mem_flatten] at hf
  obtain ⟨chunk, hchunk, hfc⟩ := hf
  rw [List.mem_map] at hchunk
  obtain ⟨p, _, rfl⟩ := hchunk
  unfold slideFragments at hfc
  rw [List.mem_append] at hfc
  rcases hfc with hfc | hfc
  · split at hfc
    · rw [List.mem_singleton] at hfc
      subst hfc
      exact ⟨_, rfl⟩
    · simp at hfc
  · rw [List.mem_map] at hfc
    obtain ⟨q, _, rfl⟩ := hfc
    exact ⟨_, rfl⟩

/-- One update step never changes the number of slides. -/
theorem applyStep_length (st : List Slide × Finset ℕ × Finset ℕ)
    (fr : (String × MapEntry) × String) :
    (applyStep st fr).1.length = st.1.length := by
  unfold applyStep
  split
  · rfl
  · dsimp only
    split
    · split <;> simp [List.length_set]
    · simp [List.length_set]

/-- The whole update loop never changes the number of slides. -/
theorem scatter_length (pairs : List ((String × MapEntry) × String)) :
    ∀ st : List Slide × Finset ℕ × Finset ℕ,
      (pairs.foldl applyStep st).1.length = st.1.length := by
  induction pairs with
  | nil => intro st; rfl
  | cons p ps ih =>
    intro st
    rw [List.foldl_cons, ih (applyStep st p), applyStep_length]

/-- Any slide present after one update step was already present, or is the
updated slide of the step, whose running quality dropped by 1 minus the
fragment score from the slide it replaced. -/
theorem applyStep_mem (st : List Slide × Finset ℕ × Finset ℕ)
    (fr : (String × MapEntry) × String) (s : Slide)
    (hs : s ∈ (applyStep st fr).1) :
    s ∈ st.1 ∨ ∃ s0 ∈ st.1,
      slideQuality s = slideQuality s0 - (1 - fr.1.2.analysis.score) := by
  unfold applyStep at hs
  split at hs
  · exact Or.inl hs
  · rename_i s0 hget
    have hmem0 : s0 ∈ st.1 := List.getElem?_mem hget
    dsimp only at hs
    split at hs
    · split at hs
      · rcases List.mem_or_eq_of_mem_set hs with h | h
        · exact Or.inl h
        · refine Or.inr ⟨s0, hmem0, ?_⟩
          subst h
          simp [slideQuality, decQuality, initSlideFields]
      · rcases List.mem_or_eq_of_mem_set hs with h | h
        · exact Or.inl h
        · refine Or.inr ⟨s0, hmem0, ?_⟩
          subst h
          split
          · simp [slideQuality, decQuality, initSlideFields]
          · simp [slideQuality, decQuality, initSlideFields]
    · rcases List.mem_or_eq_of_mem_set hs with h | h
      · exact Or.inl h
      · refine Or.inr ⟨s0, hmem0, ?_⟩
        subst h
        simp [slideQuality, decQuality, initSlideFields]

/-- Fold invariant: if every fragment score is at most 1 and every running
quality is at most 1, the update loop keeps every running quality at most 1. -/
theorem scatter_quality_le (pairs : List ((String × MapEntry) × String)) :
    ∀ st : List Slide × Finset ℕ × Finset ℕ,
      (∀ fr ∈ pairs, fr.1.2.analysis.score ≤ 1) →
      (∀ s ∈ st.1, slideQuality s ≤ 1) →
      ∀ s ∈ (pairs.foldl applyStep st).1, slideQuality s ≤ 1 := by
  induction pairs with
  | nil => intro st _ hst s hs; exact hst s hs
  | cons p ps ih =>
    intro st hsc hst s hs
    rw [List.foldl_cons] at hs
    refine ih (applyStep st p) (fun fr hfr => hsc fr (List.mem_cons_of_mem p hfr)) ?_ s hs
    intro s' hs'
    rcases applyStep_mem st p s' hs' with h | ⟨s0, hs0, hq⟩
    · exact hst s' h
    · have h1 : p.1.2.analysis.score ≤ 1 := hsc p (List.mem_cons_self p ps)
      have h0 : slideQuality s0 ≤ 1 := hst s0 hs0
      rw [hq]
      linarith

/-- One update step preserves an already-set original_bullet_points field at
every position: the copy-on-first-write guard of line 181 never overwrites it,
and no other update touches it. -/
theorem applyStep_obp (st : List Slide × Finset ℕ × Finset ℕ)
    (fr : (String × MapEntry) × String) (i : ℕ) (v : List String)
    (h : (st.1[i]?).map Slide.original_bullet_points = some (some v)) :
    ((applyStep st fr).1[i]?).map Slide.original_bullet_points = some (some v) := by
  obtain ⟨si, hgi, hv⟩ : ∃ si, st.1[i]? = some si ∧ si.original_bullet_points = some v := by
    cases hg : st.1[i]? with
    | none => rw [hg] at h; simp at h
    | some si => rw [hg] at h; exact ⟨si, rfl, by simpa using h⟩
  unfold applyStep
  split
  · rw [hgi]
    simp [hv]
  · rename_i s0 hget
    by_cases hne : fr.1.2.slide_index = i
    · subst hne
      have hs0 : s0 = si := by rw [hget] at hgi; exact Option.some.inj hgi
      subst hs0
      have hlt : fr.1.2.slide_index < st.1.length := by
        rcases List.getElem?_eq_some_iff.mp hget with ⟨hl, _⟩
        exact hl
      dsimp only
      split
      · split
        · simp [List.getElem?_set_self hlt, decQuality, initSlideFields, hv]
        · simp [List.getElem?_set_self hlt, decQuality, initSlideFields, hv]
      · simp [List.getElem?_set_self hlt, decQuality, initSlideFields, hv]
    · dsimp only
      split
      · split
        · simp [List.getElem?_set_ne hne, hgi, hv]
        · simp [List.getElem?_set_ne hne, hgi, hv]
      · simp [List.getElem?_set_ne hne, hgi, hv]

/-- The whole update loop preserves an already-set original_bullet_points field
at every position. -/
theorem scatter_obp (pairs : List ((String × MapEntry) × String)) :
    ∀ (st : List Slide × Finset ℕ × Finset ℕ) (i : ℕ) (v : List String),
      (st.1[i]?).map Slide.original_bullet_points = some (some v) →
      ((pairs.foldl applyStep st).1[i]?).map Slide.original_bullet_points = some (some v) := by
  induction pairs with
  | nil => intro st i v h; exact h
  | cons p ps ih =>
    intro st i v h
    rw [List.foldl_cons]
    exact ih (applyStep st p) i v (applyStep_obp st p i v h)

/-- Every fragment of the pairing iterated by the update loop carries a
heuristic analysis, so its score is at most 1. -/
theorem refinePairs_score_le (collab : List String → List String) (available : Bool)
    (slides : List Slide) :
    ∀ fr ∈ refinePairs collab available slides, fr.1.2.analysis.score ≤ 1 := by
  intro fr hfr
  unfold refinePairs at hfr
  dsimp only at hfr
  have h1 : fr.1 ∈ collectFrags slides := (List.of_mem_zip hfr).1
  obtain ⟨t, ht⟩ := collectFrags_analysis slides fr.1 h1
  rw [ht]
  exact analyze_score_le_one t

/-- Sum bounds for a list of rationals whose members all lie in an interval. -/
theorem list_sum_bounds (a b : ℚ) :
    ∀ l : List ℚ, (∀ x ∈ l, a ≤ x ∧ x ≤ b) →
      a * l.length ≤ l.sum ∧ l.sum ≤ b * l.length := by
  intro l
  induction l with
  | nil => intro _; simp
  | cons x xs ih =>
    intro h
    have hx := h x (List.mem_cons_self x xs)
    have hxs := ih (fun y hy => h y (List.mem_cons_of_mem x hy))
    rw [List.sum_cons, List.length_cons]
    push_cast
    constructor
    · have := hxs.1
      nlinarith [hx.1]
    · have := hxs.2
      nlinarith [hx.2]

/-- The slides of a refine_content run over a non-empty deck are exactly the
slides produced by the update loop, clamped. -/
theorem refine_slides_eq (collab : List String → List String) (device : String)
    (d : Deck) (hne : d.slides ≠ []) :
    (refine_content collab true device d).slides =
      (scatterState d.slides (refinePairs collab true d.slides)).1.map clampSlide := by
  unfold refine_content refineContentAux
  rw [if_pos rfl, if_neg hne]

/-- The statistics record attached by a refine_content run over a non-empty
deck. -/
theorem refine_stats_eq (collab : List String → List String) (device : String)
    (d : Deck) (hne : d.slides ≠ []) :
    (refine_content collab true device d).bert_refinement_stats =
      some {
        total_slides := d.slides.length
        improved_content := (scatterState d.slides (refinePairs collab true d.slides)).2.1.card
        improved_bullets := (scatterState d.slides (refinePairs collab true d.slides)).2.2.card
        improved_speaking := none
        total_quality_score := some
          ((((scatterState d.slides (refinePairs collab true d.slides)).1.map clampSlide).map
              slideQuality).sum)
        average_quality :=
          if d.slides.length = 0 then 0
          else (((scatterState d.slides (refinePairs collab true d.slides)).1.map clampSlide).map
              slideQuality).sum / (d.slides.length : ℚ)
        method_used := "t5-small (" ++ device ++ ")" } := by
  unfold refine_content refineContentAux
  rw [if_pos rfl, if_neg hne]

/-- When the refiner is available, every slide of the returned deck carries a
clamped quality score of at least 0.1. -/
theorem refine_quality_floor (collab : List String → List String) (device : String)
    (d : Deck) :
    ∀ s ∈ (refine_content collab true device d).slides,
      ∃ q, s.quality_score = some q ∧ (1:ℚ)/10 ≤ q := by
  by_cases hne : d.slides = []
  · unfold refine_content refineContentAux
    rw [if_pos rfl, if_pos hne]
    intro s hs
    rw [hne] at hs
    simp at hs
  · rw [refine_slides_eq collab device d hne]
    intro s hs
    rw [List.mem_map] at hs
    obtain ⟨s', _, rfl⟩ := hs
    exact ⟨max (1/10) (s'.quality_score.getD 1), rfl, le_max_left _ _⟩

/-- When additionally no input slide carries a pre-existing quality score,
every final quality score also stays at most 1. -/
theorem refine_quality_bounds (collab : List String → List String) (device : String)
    (d : Deck) (hq : ∀ s ∈ d.slides, s.quality_score = none) :
    ∀ s ∈ (refine_content collab true device d).slides,
      ∃ q, s.quality_score = some q ∧ (1:ℚ)/10 ≤ q ∧ q ≤ 1 := by
  by_cases hne : d.slides = []
  · unfold refine_content refineContentAux
    rw [if_pos rfl, if_pos hne]
    intro s hs
    rw [hne] at hs
    simp at hs
  · have hbase : ∀ s ∈ d.slides, slideQuality s ≤ 1 := by
      intro s hs
      rw [slideQuality, hq s hs]
      norm_num
    have hscatter : ∀ s ∈ (scatterState d.slides (refinePairs collab true d.slides)).1,
        slideQuality s ≤ 1 :=
      scatter_quality_le (refinePairs collab true d.slides) (d.slides, ∅, ∅)
        (refinePairs_score_le collab true d.slides) hbase
    rw [refine_slides_eq collab device d hne]
    intro s hs
    rw [List.mem_map] at hs
    obtain ⟨s', hs', rfl⟩ := hs
    refine ⟨max (1/10) (s'.quality_score.getD 1), rfl, le_max_left _ _, ?_⟩
    have := hscatter s' hs'
    rw [slideQuality] at this
    exact max_le (by norm_num) this

/-- A refine_content run preserves an already-set original_bullet_points field
at every slide position. -/
theorem refine_obp_preserved (collab : List String → List String) (device : String)
    (d : Deck) (i : ℕ) (v : List String)
    (h : (d.slides[i]?).map Slide.original_bullet_points = some (some v)) :
    ((refine_content collab true device d).slides[i]?).map Slide.original_bullet_points
      = some (some v) := by
  by_cases hne : d.slides = []
  · unfold refine_content refineContentAux
    rw [if_pos rfl, if_pos hne]
    exact h
  · rw [refine_slides_eq collab device d hne]
    have hs := scatter_obp (refinePairs collab true d.slides) (d.slides, ∅, ∅) i v h
    rw [List.getElem?_map]
    unfold scatterState
    cases hg : (List.foldl applyStep (d.slides, ∅, ∅) (refinePairs collab true d.slides)).1[i]? with
    | none => rw [hg] at hs; simp at hs
    | some s' =>
      rw [hg] at hs
      simpa [clampSlide] using hs

/-- The batch helper issues at most one generate request. -/
theorem batch_calls_le_one (collab : List String → List String) (available : Bool)
    (texts actions : List String) :
    (refine_content_batch collab available texts actions).2 ≤ 1 := by
  unfold refine_content_batch
  split
  · norm_num
  · dsimp only
    split
    · norm_num
    · norm_num

/-- Positions whose action is none are passed through unchanged by the
output-mapping helper, for lists of equal length. -/
theorem mapBackOutputs_none_position :
    ∀ (texts actions outs : List String) (i : ℕ),
      texts.length = actions.length → actions[i]? = some "none" →
      (mapBackOutputs (texts.zip actions) outs)[i]? = texts[i]? := by
  intro texts
  induction texts with
  | nil =>
    intro actions outs i hlen hact
    cases actions with
    | nil => simp at hact
    | cons a as => simp at hlen
  | cons t ts ih =>
    intro actions outs i hlen hact
    cases actions with
    | nil => simp at hlen
    | cons a as =>
      rw [List.zip_cons_cons]
      cases i with
      | zero =>
        have ha : a = "none" := by simpa using hact
        subst ha
        rw [mapBackOutputs]
        norm_num
      | succ j =>
        have hact' : as[j]? = some "none" := by simpa using hact
        have hlen' : ts.length = as.length := by simpa using hlen
        rw [mapBackOutputs]
        split
        · rw [List.getElem?_cons_succ, List.getElem?_cons_succ]
          exact ih as outs.tail j hlen' hact'
        · rw [List.getElem?_cons_succ, List.getElem?_cons_succ]
          exact ih as outs j hlen' hact'

/-! ### Claim theorems -/

/-- Claim C1: for every tuple of the four booleans, the layout chooser returns
exactly the tag given by the fixed priority table of the specification (charts
and diagrams yield mixed_media, then charts and content, then diagrams and
content, then charts only, then diagrams only, then photo and content, else
content_only).  Both sides are total Lean functions of the four booleans, so
the chooser is total and deterministic and no combination falls through. -/
theorem layout_strategy_matches_priority_table (hc hd hco hp : Bool) :
    determine_layout_strategy hc hd hco hp = layoutTableSpec hc hd hco hp := by
  cases hc <;> cases hd <;> cases hco <;> cases hp <;> rfl

/-- Claim C2, counterexample: the real refiner with available = false returns
the deck entirely unchanged.  On a one-slide deck with no quality key, the
result still has no quality score (in particular not 0.8) and carries no
refinement stats, contradicting the claim that refine_content stamps every
slide with quality 0.8 and refined = false whenever the available flag is
false. -/
theorem unavailable_real_refiner_stamps_nothing :
    refine_content idCollab false "cpu" bareDeck = bareDeck ∧
    ((refine_content idCollab false "cpu" bareDeck).slides[0]?).map Slide.quality_score
        = some none ∧
    (refine_content idCollab false "cpu" bareDeck).bert_refinement_stats = none := by
  refine ⟨by decide, by decide, by decide⟩

/-- Claim C2 (amended): when the collaborator is unavailable the behaviour
depends on which of the two classes named BertContentRefiner is in use.  The
real refiner of modules/bert_refiner.py with available = false returns the deck
unchanged (no stamping, no stats).  Only the lightweight fallback class of
bert_features_extracted.py (installed when the module import fails) leaves
every slide's text fields unchanged while stamping quality 0.8 and
bert_refined = false on every slide and attaching stats that report method
rule-based. -/
theorem unavailable_refiner_semantics :
    (∀ (collab : List String → List String) (device : String) (d : Deck),
        refine_content collab false device d = d) ∧
    (∀ d : Deck,
        (fallbackRefine d).slides =
          d.slides.map (fun s => { s with quality_score := some (4/5), bert_refined := some false }) ∧
        (fallbackRefine d).bert_refinement_stats = some {
          total_slides := d.slides.length
          improved_content := 0
          improved_bullets := 0
          improved_speaking := some 0
          total_quality_score := none
          average_quality := 4/5
          method_used := "rule-based" }) := by
  constructor
  · intro collab device d
    rfl
  · intro d
    exact ⟨rfl, rfl⟩

/-- Claim C4, counterexample: running refine_content twice with the
deterministic identity collaborator on a deck whose single slide holds one
41-word content field overwrites the original_content shadow.  After the first
call the shadow holds the pre-rewrite text; after the second call it holds the
already-refined text of the first call, which differs from the pre-first-
rewrite text. -/
theorem second_refinement_overwrites_content_shadow :
    ((refine_content idCollab true "cpu" contentDeck).slides[0]?).map Slide.original_content
        = some (some longFragment) ∧
    ((refine_content idCollab true "cpu"
        (refine_content idCollab true "cpu" contentDeck)).slides[0]?).map Slide.original_content
        = some (some ("summarize: " ++ longFragment)) ∧
    ("summarize: " ++ longFragment) ≠ longFragment := by
  refine ⟨by decide, by decide, by decide⟩

/-- Claim C4 (amended): re-running refine_content on an already refined deck
preserves the original_bullet_points shadow written by the first call - the
copy-on-first-write guard protects the bullet shadow, though not the content
shadow - and no slide's quality score ever drops below the 0.1 floor. -/
theorem second_refinement_bullet_shadow_and_floor (collab : List String → List String)
    (device : String) (d : Deck) (i : ℕ) (v : List String) :
    (((refine_content collab true device d).slides[i]?).map Slide.original_bullet_points
        = some (some v) →
      ((refine_content collab true device
          (refine_content collab true device d)).slides[i]?).map Slide.original_bullet_points
        = some (some v)) ∧
    (∀ s ∈ (refine_content collab true device
        (refine_content collab true device d)).slides,
      ∃ q, s.quality_score = some q ∧ (1:ℚ)/10 ≤ q) := by
  constructor
  · intro hshadow
    exact refine_obp_preserved collab device _ i v hshadow
  · exact refine_quality_floor collab device _

/-- Claim C4, witness: on the concrete one-bullet deck, the bullet shadow set
by the first call survives the second call. -/
theorem second_refinement_bullet_shadow_witness :
    ((refine_content idCollab true "cpu"
        (refine_content idCollab true "cpu" bulletDeck)).slides[0]?).map Slide.original_bullet_points
      = some (some [longFragment]) :=
  (second_refinement_bullet_shadow_and_floor idCollab "cpu" bulletDeck 0 [longFragment]).1
    (by decide)

/-- Claim C5: one invocation of refine_content issues at most one batched
generate request to the collaborator, regardless of the number of slides and
fragments; every string submitted to the collaborator stems from a fragment
whose action is not none; and a fragment whose analysis action is none is
never rewritten: it reappears unchanged at its original position in the batch
result. -/
theorem one_batched_call_and_none_passthrough :
    (∀ (collab : List String → List String) (available : Bool) (device : String) (d : Deck),
        refine_generate_calls collab available device d ≤ 1) ∧
    (∀ (texts actions : List String), ∀ s ∈ batchInputs texts actions,
        ∃ p ∈ texts.zip actions, p.2 ≠ "none" ∧ s = instructionFor p.2 ++ p.1) ∧
    (∀ (collab : List String → List String) (available : Bool)
        (texts actions : List String) (i : ℕ),
        texts.length = actions.length → actions[i]? = some "none" →
        ((refine_content_batch collab available texts actions).1)[i]? = texts[i]?) := by
  refine ⟨?_, ?_, ?_⟩
  · intro collab available device d
    unfold refine_generate_calls refineContentAux
    split
    · split
      · norm_num
      · dsimp only
        unfold refineCalls
        dsimp only
        exact batch_calls_le_one collab available _ _
    · norm_num
  · intro texts actions s hs
    unfold batchInputs at hs
    rw [List.mem_filterMap] at hs
    obtain ⟨p, hp, hif⟩ := hs
    by_cases hne : p.2 ≠ "none"
    · rw [if_pos hne] at hif
      exact ⟨p, hp, hne, (Option.some.inj hif).symm⟩
    · rw [if_neg hne] at hif
      exact absurd hif (by simp)
  · intro collab available texts actions i hlen hact
    unfold refine_content_batch
    split
    · rfl
    · dsimp only
      split
      · rfl
      · exact mapBackOutputs_none_position texts actions _ i hlen hact

/-- Claim C5, witness: on a concrete two-fragment batch whose first action is
none, the first text passes through unchanged. -/
theorem one_batched_call_and_none_passthrough_witness :
    ((refine_content_batch idCollab true ["keep me", "too long"]
        ["none", "summarize"]).1)[0]? = (["keep me", "too long"] : List String)[0]? :=
  one_batched_call_and_none_passthrough.2.2 idCollab true
    ["keep me", "too long"] ["none", "summarize"] 0 rfl rfl

/-- Claim C3: for a non-empty deck whose slides carry no pre-existing quality
score, processed by an available refiner, every final per-slide quality score
is a clamped value in the interval from 0.1 to 1.0, and the reported
average_quality equals the arithmetic mean of exactly these clamped scores and
therefore lies in the same interval. -/
theorem refinement_quality_scores_and_average (collab : List String → List String)
    (device : String) (d : Deck)
    (hne : d.slides ≠ [])
    (hq : ∀ s ∈ d.slides, s.quality_score = none) :
    (∀ s ∈ (refine_content collab true device d).slides,
        ∃ q, s.quality_score = some q ∧ (1:ℚ)/10 ≤ q ∧ q ≤ 1) ∧
    ∃ st, (refine_content collab true device d).bert_refinement_stats = some st ∧
      st.average_quality =
        ((refine_content collab true device d).slides.map slideQuality).sum /
          ((refine_content collab true device d).slides.length : ℚ) ∧
      (1:ℚ)/10 ≤ st.average_quality ∧ st.average_quality ≤ 1 := by
  have hbounds := refine_quality_bounds collab device d hq
  refine ⟨hbounds, ?_⟩
  have hslides := refine_slides_eq collab device d hne
  have hlen : (refine_content collab true device d).slides.length = d.slides.length := by
    rw [hslides, List.length_map]
    unfold scatterState
    exact scatter_length (refinePairs collab true d.slides) (d.slides, ∅, ∅)
  have hn0 : d.slides.length ≠ 0 := fun h0 => hne (List.length_eq_zero.mp h0)
  have hnpos : (0:ℚ) < (d.slides.length : ℚ) := by
    have : 0 < d.slides.length := Nat.pos_of_ne_zero hn0
    exact_mod_cast this
  have hmem : ∀ x ∈ (refine_content collab true device d).slides.map slideQuality,
      (1:ℚ)/10 ≤ x ∧ x ≤ 1 := by
    intro x hx
    rw [List.mem_map] at hx
    obtain ⟨s, hsmem, rfl⟩ := hx
    obtain ⟨q, hq1, hq2, hq3⟩ := hbounds s hsmem
    rw [slideQuality, hq1]
    exact ⟨hq2, hq3⟩
  have hsum := list_sum_bounds (1/10) 1 _ hmem
  have hslen : ((refine_content collab true device d).slides.map slideQuality).length
      = d.slides.length := by
    rw [List.length_map, hlen]
  refine ⟨_, refine_stats_eq collab device d hne, ?_, ?_, ?_⟩
  · show (if d.slides.length = 0 then 0
        else (((scatterState d.slides (refinePairs collab true d.slides)).1.map clampSlide).map
          slideQuality).sum / (d.slides.length : ℚ)) =
      ((refine_content collab true device d).slides.map slideQuality).sum /
        ((refine_content collab true device d).slides.length : ℚ)
    rw [if_neg hn0, hlen, hslides]
  · show (1:ℚ)/10 ≤
      (if d.slides.length = 0 then 0
        else (((scatterState d.slides (refinePairs collab true d.slides)).1.map clampSlide).map
          slideQuality).sum / (d.slides.length : ℚ))
    rw [if_neg hn0]
    rw [le_div_iff₀ hnpos]
    have h1 := hsum.1
    rw [hslen] at h1
    calc (1:ℚ)/10 * (d.slides.length : ℚ) = 1/10 * (d.slides.length : ℚ) := rfl
      _ ≤ ((refine_content collab true device d).slides.map slideQuality).sum := h1
      _ = (((scatterState d.slides (refinePairs collab true d.slides)).1.map clampSlide).map
            slideQuality).sum := by rw [hslides]
  · show (if d.slides.length = 0 then 0
        else (((scatterState d.slides (refinePairs collab true d.slides)).1.map clampSlide).map
          slideQuality).sum / (d.slides.length : ℚ)) ≤ 1
    rw [if_neg hn0]
    rw [div_le_one hnpos]
    have h2 := hsum.2
    rw [hslen] at h2
    calc (((scatterState d.slides (refinePairs collab true d.slides)).1.map clampSlide).map
            slideQuality).sum
        = ((refine_content collab true device d).slides.map slideQuality).sum := by rw [hslides]
      _ ≤ 1 * (d.slides.length : ℚ) := h2
      _ = (d.slides.length : ℚ) := one_mul _

/-- Claim C3, witness: the one-slide deck with no keys satisfies both
hypotheses, and the theorem instantiates to it. -/
theorem refinement_quality_scores_and_average_witness :
    (∀ s ∈ (refine_content idCollab true "cpu" bareDeck).slides,
        ∃ q, s.quality_score = some q ∧ (1:ℚ)/10 ≤ q ∧ q ≤ 1) ∧
    ∃ st, (refine_content idCollab true "cpu" bareDeck).bert_refinement_stats = some st ∧
      st.average_quality =
        ((refine_content idCollab true "cpu" bareDeck).slides.map slideQuality).sum /
          ((refine_content idCollab true "cpu" bareDeck).slides.length : ℚ) ∧
      (1:ℚ)/10 ≤ st.average_quality ∧ st.average_quality ≤ 1 :=
  refinement_quality_scores_and_average idCollab "cpu" bareDeck (by decide) (by decide)

/-- Claim C10: for a non-empty deck whose slides carry only the documented
outline field names - no content, bullet_points or quality_score keys - an
available refiner collects zero fragments: it issues no generative call,
returns every slide unchanged except for a quality score stamped at 1.0 (in
particular it adds no bert_refined or bert_suggestions keys and rewrites no
text field), and the stats report 0 improved content, 0 improved bullets and
average quality 1.0. -/
theorem outline_only_deck_collects_nothing (collab : List String → List String)
    (device : String) (d : Deck)
    (hne : d.slides ≠ [])
    (hf : ∀ s ∈ d.slides, s.content = none ∧ s.bullet_points = none ∧ s.quality_score = none) :
    (refine_content collab true device d).slides
        = d.slides.map (fun s => { s with quality_score := some 1 }) ∧
    refine_generate_calls collab true device d = 0 ∧
    ∃ st, (refine_content collab true device d).bert_refinement_stats = some st ∧
      st.improved_content = 0 ∧ st.improved_bullets = 0 ∧ st.average_quality = 1 := by
  have hfrags : collectFrags d.slides = [] := by
    unfold collectFrags
    rw [List.flatten_eq_nil_iff]
    intro chunk hchunk
    rw [List.mem_map] at hchunk
    obtain ⟨p, hp, rfl⟩ := hchunk
    have hmem : p.2 ∈ d.slides := List.getElem?_mem (List.mem_enum_iff_getElem?.mp hp)
    obtain ⟨hc, hb, _⟩ := hf p.2 hmem
    unfold slideFragments
    rw [hc, hb]
    simp
  have hpairs : refinePairs collab true d.slides = [] := by
    unfold refinePairs
    dsimp only
    rw [hfrags]
    rfl
  have hscatter : scatterState d.slides (refinePairs collab true d.slides)
      = (d.slides, ∅, ∅) := by
    rw [hpairs]
    rfl
  have hn0 : d.slides.length ≠ 0 := fun h0 => hne (List.length_eq_zero.mp h0)
  have hnpos : (0:ℚ) < (d.slides.length : ℚ) := by
    have : 0 < d.slides.length := Nat.pos_of_ne_zero hn0
    exact_mod_cast this
  have hconst : ∀ s ∈ d.slides, clampSlide s = { s with quality_score := some 1 } := by
    intro s hs
    obtain ⟨_, _, hqs⟩ := hf s hs
    unfold clampSlide
    rw [hqs, Option.getD_none, max_eq_right (by norm_num : (1:ℚ)/10 ≤ 1)]
  refine ⟨?_, ?_, ?_⟩
  · rw [refine_slides_eq collab device d hne, hscatter]
    exact List.map_congr_left hconst
  · unfold refine_generate_calls refineContentAux
    rw [if_pos rfl, if_neg hne]
    dsimp only
    unfold refineCalls
    dsimp only
    rw [hfrags]
    rfl
  · refine ⟨_, refine_stats_eq collab device d hne, ?_, ?_, ?_⟩
    · show (scatterState d.slides (refinePairs collab true d.slides)).2.1.card = 0
      rw [hscatter]
      rfl
    · show (scatterState d.slides (refinePairs collab true d.slides)).2.2.card = 0
      rw [hscatter]
      rfl
    · show (if d.slides.length = 0 then 0
          else (((scatterState d.slides (refinePairs collab true d.slides)).1.map
              clampSlide).map slideQuality).sum / (d.slides.length : ℚ)) = 1
      rw [if_neg hn0, hscatter]
      have hones : (d.slides.map clampSlide).map slideQuality
          = d.slides.map (fun _ => (1:ℚ)) := by
        rw [List.map_map]
        refine List.map_congr_left ?_
        intro s hs
        show slideQuality (clampSlide s) = 1
        rw [hconst s hs]
        rfl
      show ((d.slides.map clampSlide).map slideQuality).sum / (d.slides.length : ℚ) = 1
      rw [hones, List.map_const', List.sum_replicate, nsmul_eq_mul, mul_one]
      exact div_self (ne_of_gt hnpos)

/-- Claim C10, witness: on the concrete outline-only deck, the conclusion holds
with every text field untouched. -/
theorem outline_only_deck_collects_nothing_witness :
    (refine_content idCollab true "cpu" outlineDeck).slides
        = outlineDeck.slides.map (fun s => { s with quality_score := some 1 }) ∧
    refine_generate_calls idCollab true "cpu" outlineDeck = 0 ∧
    ∃ st, (refine_content idCollab true "cpu" outlineDeck).bert_refinement_stats = some st ∧
      st.improved_content = 0 ∧ st.improved_bullets = 0 ∧ st.average_quality = 1 :=
  outline_only_deck_collects_nothing idCollab "cpu" outlineDeck (by decide) (by decide)

/-- Claim C6: the source computes the length discount with an if/elif chain
that tests avg > 100 before avg > 150, so the claimed 2-point reduction for
lengths above 150 is unreachable.  At the standard 10 x 7.5 geometry (bullet
base 15pt), 5 bullets of average length 151 produce 14pt, while the claimed
rule (minus 2 for length above 150) produces 13pt. -/
theorem bullet_size_length_discount_dead_branch :
    get_bullet_size 10 (15/2) 5 151 = 14 ∧ bulletSizeClaimed 10 (15/2) 5 151 = 13 := by
  constructor <;>
    norm_num [get_bullet_size, bulletSizeClaimed, calculate_base_sizes, baseSize,
      scale_factor, pyMin, pyInt, Int.toNat_ofNat] <;> omega

/-- A base size at scale factor at least 1 is at least its unscaled constant. -/
theorem baseSize_ge (c : ℕ) (s : ℚ) (hs : 1 ≤ s) : c ≤ baseSize c s := by
  unfold baseSize pyInt
  have h0 : (0:ℚ) ≤ (c : ℚ) * s := by positivity
  rw [if_pos h0]
  have hq : (c : ℚ) ≤ (c : ℚ) * s := le_mul_of_one_le_right (by positivity) hs
  have hfl : (c : ℤ) ≤ ⌊(c : ℚ) * s⌋ := Int.le_floor.mpr (by push_cast; linarith)
  calc c = ((c : ℤ)).toNat := by simp
    _ ≤ (⌊(c : ℚ) * s⌋).toNat := Int.toNat_le_toNat hfl
    _ ≤ max (⌊(c : ℚ) * s⌋).toNat 10 := le_max_left _ _

/-- The four-band content degradation is antitone in the text length once the
base size is at least 13. -/
theorem content_band_antitone (b : ℕ) (hb : 13 ≤ b) (l1 l2 : ℕ) (hl : l1 ≤ l2) :
    (if l2 > 500 then max (b - 3) 11 else if l2 > 300 then max (b - 2) 12
     else if l2 > 150 then max (b - 1) 13 else b) ≤
    (if l1 > 500 then max (b - 3) 11 else if l1 > 300 then max (b - 2) 12
     else if l1 > 150 then max (b - 1) 13 else b) := by
  have h32 : max (b - 3) 11 ≤ max (b - 2) 12 := max_le_max (by omega) (by norm_num)
  have h21 : max (b - 2) 12 ≤ max (b - 1) 13 := max_le_max (by omega) (by norm_num)
  have h10 : max (b - 1) 13 ≤ b := max_le (by omega) hb
  split_ifs <;>
    first
      | exact le_rfl
      | exact h32
      | exact h21
      | exact h10
      | exact h32.trans h21
      | exact h21.trans h10
      | exact (h32.trans h21).trans h10
      | omega

/-- Claim C7, counterexample: at the positive geometry 9 x 6.75 inches (scale
factor 0.9) the normal content base size is 12pt, below the 13pt band floor, so
a text of length 200 gets a LARGER font than a text of length 100: the content
size is not monotonically non-increasing in text length for every positive
geometry. -/
theorem content_size_not_antitone_small_geometry :
    (0:ℚ) < 9 ∧ (0:ℚ) < 27/4 ∧ (100:ℕ) ≤ 200 ∧
    get_content_size 9 (27/4) 100 "normal" = 12 ∧
    get_content_size 9 (27/4) 200 "normal" = 13 := by
  refine ⟨by norm_num, by norm_num, by norm_num, ?_, ?_⟩ <;>
    (norm_num [get_content_size, calculate_base_sizes, baseSize, scale_factor, pyMin, pyInt,
      (show ("normal" : String) ≠ "detailed" from by decide),
      (show ("normal" : String) ≠ "heading" from by decide)]
     all_goals omega)

/-- Claim C7 (amended): for positive geometries, every content and bullet size
is a positive integer and the bullet size is monotonically non-increasing in
the bullet count; the content size is monotonically non-increasing in the text
length provided the geometry is at least the 10 x 7.5 reference (scale factor
at least 1), which keeps every base size above the 13pt band floor.  Below the
reference geometry the band floors can exceed the base size and monotonicity
fails, as the counterexample shows. -/
theorem font_sizes_monotone_and_positive (w h : ℚ) (hw : 0 < w) (hh : 0 < h) :
    (1 ≤ scale_factor w h →
      ∀ (ct : String) (l1 l2 : ℕ), l1 ≤ l2 →
        get_content_size w h l2 ct ≤ get_content_size w h l1 ct) ∧
    (∀ (L c1 c2 : ℕ), c1 ≤ c2 → get_bullet_size w h c2 L ≤ get_bullet_size w h c1 L) ∧
    (∀ (tl : ℕ) (ct : String), 0 < get_content_size w h tl ct) ∧
    (∀ (bc L : ℕ), 0 < get_bullet_size w h bc L) := by
  refine ⟨?_, ?_, ?_, ?_⟩
  · intro hs ct l1 l2 hl
    have hbase : 13 ≤ (if ct = "detailed" then (calculate_base_sizes w h).content_large
        else if ct = "heading" then (calculate_base_sizes w h).heading
        else (calculate_base_sizes w h).content_normal) := by
      split_ifs
      · exact le_trans (by norm_num) (baseSize_ge 16 _ hs)
      · exact le_trans (by norm_num) (baseSize_ge 18 _ hs)
      · exact le_trans (by norm_num) (baseSize_ge 14 _ hs)
    unfold get_content_size
    dsimp only
    exact content_band_antitone _ hbase l1 l2 hl
  · intro L c1 c2 hc
    unfold get_bullet_size
    dsimp only
    split_ifs <;> exact max_le_max (by omega) le_rfl
  · intro tl ct
    have hbase : 10 ≤ (if ct = "detailed" then (calculate_base_sizes w h).content_large
        else if ct = "heading" then (calculate_base_sizes w h).heading
        else (calculate_base_sizes w h).content_normal) := by
      split_ifs <;> exact le_max_right _ _
    unfold get_content_size
    dsimp only
    split_ifs at hbase ⊢ <;> omega
  · intro bc L
    unfold get_bullet_size
    dsimp only
    have : 11 ≤ max (if L > 100 then (if bc > 8 then (calculate_base_sizes w h).bullet_main - 2
        else if bc > 6 then (calculate_base_sizes w h).bullet_main - 1
        else (calculate_base_sizes w h).bullet_main) - 1
      else if L > 150 then (if bc > 8 then (calculate_base_sizes w h).bullet_main - 2
        else if bc > 6 then (calculate_base_sizes w h).bullet_main - 1
        else (calculate_base_sizes w h).bullet_main) - 2
      else (if bc > 8 then (calculate_base_sizes w h).bullet_main - 2
        else if bc > 6 then (calculate_base_sizes w h).bullet_main - 1
        else (calculate_base_sizes w h).bullet_main)) 11 := le_max_right _ _
    omega

/-- Claim C7, witness: at the reference geometry the monotonicity and
positivity conclusions instantiate to concrete values. -/
theorem font_sizes_monotone_and_positive_witness :
    get_content_size 10 (15/2) 800 "normal" ≤ get_content_size 10 (15/2) 100 "normal" ∧
    get_bullet_size 10 (15/2) 9 50 ≤ get_bullet_size 10 (15/2) 5 50 ∧
    0 < get_content_size 10 (15/2) 100 "normal" ∧
    0 < get_bullet_size 10 (15/2) 5 50 := by
  have hthm := font_sizes_monotone_and_positive 10 (15/2) (by norm_num) (by norm_num)
  have hs : 1 ≤ scale_factor 10 (15/2) := by
    norm_num [scale_factor, pyMin]
  exact ⟨hthm.1 hs "normal" 100 800 (by norm_num), hthm.2.1 50 5 9 (by norm_num),
         hthm.2.2.1 100 "normal", hthm.2.2.2 5 50⟩

/-- Claim C8: the source divides the long-word count by len(words + [1e-5]),
which is the word count PLUS ONE, not the word count.  On a 6-word fragment
with exactly one word longer than 12 characters the true long-word fraction
1/6 exceeds 15 percent, so the claim demands action clarify with score 0.8,
but the code compares 1/7 against 0.15 and returns action none with score
1.0. -/
theorem clarify_rule_uses_offset_denominator :
    (pyWords "extraordinarily a b c d e").length = 6 ∧
    ((pyWords "extraordinarily a b c d e").filter (fun w => w.length > 12)).length = 1 ∧
    ((1:ℚ)/6 > 15/100) ∧
    analyze_text_quality "extraordinarily a b c d e"
      = { score := 1, action := "none", reason := "" } := by
  refine ⟨by decide, by decide, by norm_num, ?_⟩
  refine analyze_none_of _ (by decide) ?_
  have e1 : ((pyWords "extraordinarily a b c d e").filter
      (fun w => w.length > 12)).length = 1 := by decide
  have e2 : (pyWords "extraordinarily a b c d e").length = 6 := by decide
  rw [e1, e2]
  norm_num

/-- Claim C9, counterexample: on the end-to-end example fragment the numeric
scan captures EIGHT tokens, not four - the quarter indices 1, 2, 3, 4 match the
digit pattern as well - and the chart step, which takes the first six tokens,
emits a bar spec with six labels and six values, not four. -/
theorem quarter_example_not_four_points :
    (analyze_content quarterText).numbers_data.length = 8 ∧
    (chartSpecOf (analyze_content quarterText)).map (fun sp => sp.2.1.length) = some 6 ∧
    (chartSpecOf (analyze_content quarterText)).map (fun sp => sp.2.2.length) = some 6 := by
  refine ⟨by decide, by decide, by decide⟩

/-- Claim C9 (amended): on the fragment Q1: 100tr, Q2: 150tr, Q3: 200tr,
Q4: 180tr the extractor produces the eight tokens 1, 100tr, 2, 150tr, 3,
200tr, 4, 180tr (the quarter indices are captured too, before unit handling),
no chart-intent keyword fires so chart_type stays unset, and the chart step
cleans the first six tokens to 1, 100, 2, 150, 3, 200 and emits a bar chart
spec with exactly six positional labels and six values, bar being the default
because at least two numbers exist and the type is neither pie nor line. -/
theorem quarter_example_signal_and_chart :
    analyze_content quarterText =
      { has_numbers := true
        numbers_data := ["1", "100tr", "2", "150tr", "3", "200tr", "4", "180tr"]
        chart_type := none } ∧
    chartSpecOf (analyze_content quarterText) =
      some ("bar", (["Item 1", "Item 2", "Item 3", "Item 4", "Item 5", "Item 6"],
            [1, 100, 2, 150, 3, 200])) := by
  refine ⟨by decide, by decide⟩
